import Mathlib

/-!
Shallow embedding of the trace capture & insight pipeline of
chrome-devtools-mcp: the buffer decoder / trace adapter
(`parseRawTraceBuffer`), the insight registry (`getInsightOutput`), the
LCP breakdown deriver (`getLCPBreakdownData`), the layout shift extractor
(`getLayoutShifts` / `getLayoutShiftImages`), the accessibility-node
correlator (`findAXNode`), the LCP display pipeline
(`getLCPDataWithScreenshot`) and the capture lifecycle controller
(`startTrace` / `stopTrace` handlers, `stopTracingAndAppendOutput`).

External collaborators (the DevTools trace engine, the browser page, the
file saver, the insight formatter) are modelled as explicit environment
records of pure functions; a call that may throw in TypeScript is a
function returning `Except String`, the error being the thrown message.
Side effects on the browser are recorded as an explicit command list.
JavaScript numbers are modelled as exact rationals (`Rat`);
identifiers and timestamps as naturals.
-/

namespace Spec2Proof

/-- A raw trace byte buffer (`Uint8Array`). -/
abbrev Buffer : Type := List UInt8

/-! ## Insight / trace data model (src/trace-processing/parse.ts) -/

/-- One subpart of the LCPBreakdown insight; `range` is a duration in
microseconds (a JS number, modelled exactly as a rational). -/
structure LCPSubpart where
  range : Rat
deriving DecidableEq, Repr

/-- The `subparts` field of an LCPBreakdown insight model: each of the four
phases may be absent. -/
structure LCPSubparts where
  ttfb : Option LCPSubpart
  loadDelay : Option LCPSubpart
  loadDuration : Option LCPSubpart
  renderDelay : Option LCPSubpart
deriving DecidableEq, Repr

/-- The LCP event attached to an LCPBreakdown insight. The optional chain
`lcpEvent?.args?.data?.nodeId` of the source is collapsed into a single
optional `nodeId`. -/
structure LCPEventData where
  nodeId : Option Nat
deriving DecidableEq, Repr

/-- The LCPBreakdown insight model, with the three fields the pipeline
reads: `lcpEvent`, `subparts` and `lcpMs` (all possibly absent). -/
structure LCPInsightModel where
  lcpEvent : Option LCPEventData
  subparts : Option LCPSubparts
  lcpMs : Option Rat
deriving DecidableEq, Repr

/-- An insight model stored in an insight set: either the structured
LCPBreakdown model or some other insight, opaque to this pipeline (only
ever passed to the external formatter). -/
inductive InsightModel where
  | lcp (m : LCPInsightModel)
  | other (tag : String)
deriving DecidableEq, Repr

/-- An insight set: a model object mapping insight names to insight
models. A key present with value `none` models a key whose value is
falsy (`undefined`/`null`) — `name in model` is then true but
`model[name]` is falsy. -/
structure InsightSet where
  model : List (String × Option InsightModel)
deriving DecidableEq, Repr

/-- Lookup in a JS `Map` (or a plain object used as a map): the value at
the first — in a real `Map`, only — entry whose key matches. -/
def mapGet {α : Type} (m : List (String × α)) (key : String) : Option α :=
  (m.find? (fun p => p.1 == key)).map (·.2)

/-- The `TraceInsightSets` map: a `Map` from insight-set id to insight set, in
insertion order (the order `Array.from(map.keys())` observes). -/
abbrev TraceInsightSets : Type := List (String × InsightSet)

/-- Screenshot artifact args attached to a layout shift: either an inline
encoded `snapshot` or a `dataUri`, mutually exclusive (the source
discriminates with `'snapshot' in args`). -/
inductive ShotArgs where
  | snapshot (s : String)
  | dataUri (d : String)
deriving DecidableEq, Repr

/-- The string held by a screenshot artifact:
`'snapshot' in args ? args.snapshot : args.dataUri`. -/
def ShotArgs.get : ShotArgs → String
  | .snapshot s => s
  | .dataUri d => d

/-- A synthetic layout shift event, with the fields the extractor reads:
`ts`, the optional chain `args.data?.weighted_score_delta` collapsed into
one optional rational, and the optional before/after screenshot
artifacts of `parsedData.screenshots`. -/
structure SyntheticLayoutShift where
  ts : Nat
  weightedScoreDelta : Option Rat
  screenshotBefore : Option ShotArgs
  screenshotAfter : Option ShotArgs
deriving DecidableEq, Repr

/-- A cluster of correlated layout shift events
(`parsedTrace.data.LayoutShifts.clusters[i]`). -/
structure ShiftCluster where
  events : List SyntheticLayoutShift
deriving DecidableEq, Repr

/-- The parsed trace model returned by the engine, restricted to the two
surfaces this pipeline queries: the pre-computed insight sets (nullable)
and the layout shift clusters. -/
structure ParsedTrace where
  insights : Option TraceInsightSets
  layoutShiftClusters : List ShiftCluster
deriving DecidableEq, Repr

/-- A `TraceResult`: a successful parse, bundling the parsed trace and its
(nullable) insight sets. -/
structure TraceResult where
  parsedTrace : ParsedTrace
  insights : Option TraceInsightSets
deriving DecidableEq, Repr

/-- A `TraceParseError`: a single human-readable message. -/
structure TraceParseError where
  error : String
deriving DecidableEq, Repr

/-- The `TraceResult | TraceParseError` union; `traceResultIsSuccess`
discriminates on the presence of `parsedTrace`, which the sum's
constructor makes explicit. -/
abbrev TraceOutcome : Type := TraceResult ⊕ TraceParseError

/-- Embedding of `traceResultIsSuccess`: the union member is the success variant. -/
def traceResultIsSuccess (x : TraceOutcome) : Bool :=
  match x with
  | .inl _ => true
  | .inr _ => false

/-! ## Buffer decoder / trace adapter (`parseRawTraceBuffer`) -/

section Parse

variable {Event : Type}

/-- The two JSON wire shapes the adapter accepts: a bare event array or
an object with a `traceEvents` field. -/
inductive WireJson (Event : Type) where
  | arr (events : List Event)
  | objTraceEvents (events : List Event)
deriving DecidableEq

/-- Operations invoked on the shared trace engine instance, recorded in
order. -/
inductive EngineOp (Event : Type) where
  | resetProcessor
  | parse (events : List Event)
  | parsedTrace
deriving DecidableEq

/-- Environment of external collaborators used by `parseRawTraceBuffer`:
UTF-8 decoding of a buffer, `JSON.parse` (throwing modelled as `.error`
carrying the extracted message text), the engine's `parse` (whose
rejection is likewise an `.error`), and the engine's `parsedTrace()`
after it has parsed the given events (nullable). -/
structure ParseEnv (Event : Type) where
  decode : Buffer → String
  jsonParse : String → Except String (WireJson Event)
  engineParse : List Event → Except String Unit
  engineParsedTrace : List Event → Option ParsedTrace

/-- Embedding of `parseRawTraceBuffer`, returning the result-or-error together with
the ordered list of engine operations performed. The source calls
`engine.resetProcessor()` unconditionally, before the buffer checks. -/
def parseRawTraceBuffer (env : ParseEnv Event) (buffer : Option Buffer) :
    TraceOutcome × List (EngineOp Event) :=
  let ops : List (EngineOp Event) := [.resetProcessor]
  match buffer with
  | none => (.inr ⟨"No buffer was provided."⟩, ops)
  | some buf =>
    let asString := env.decode buf
    if asString = "" then
      (.inr ⟨"Decoding the trace buffer returned an empty string."⟩, ops)
    else
      match env.jsonParse asString with
      | .error e => (.inr ⟨e⟩, ops)
      | .ok data =>
        let events := match data with
          | .arr l => l
          | .objTraceEvents l => l
        match env.engineParse events with
        | .error e => (.inr ⟨e⟩, ops ++ [.parse events])
        | .ok _ =>
          match env.engineParsedTrace events with
          | none =>
            (.inr ⟨"No parsed trace was returned from the trace engine."⟩,
             ops ++ [.parse events, .parsedTrace])
          | some pt =>
            (.inl ⟨pt, pt.insights⟩, ops ++ [.parse events, .parsedTrace])

end Parse

/-! ## Insight registry (`getInsightOutput`) -/

/-- The `{output} | {error}` union returned by the registry. -/
inductive InsightOutput where
  | output (s : String)
  | error (s : String)
deriving DecidableEq, Repr

/-- Embedding of `getInsightOutput`. The external presentation formatter
(`PerformanceInsightFormatter` over an `AgentFocus` of the parsed trace)
is an explicit parameter `fmt`. `name in set.model` is key membership;
the looked-up value may still be falsy (`none`). -/
def getInsightOutput (fmt : ParsedTrace → InsightModel → String)
    (result : TraceResult) (insightSetId insightName : String) :
    InsightOutput :=
  match result.insights with
  | none => .error "No Performance insights are available for this trace."
  | some insights =>
    match mapGet insights insightSetId with
    | none =>
      .error "No Performance Insights for the given insight set id. Only use ids given in the \"Available insight sets\" list."
    | some insightSet =>
      let matchingInsight : Option InsightModel :=
        match mapGet insightSet.model insightName with
        | some v => v
        | none => none
      match matchingInsight with
      | none =>
        .error ("No Insight with the name " ++ insightName ++ " found. Double check the name you provided is accurate and try again.")
      | some m => .output (fmt result.parsedTrace m)

/-! ## LCP breakdown deriver (`getLCPBreakdownData`) -/

/-- One derived LCP phase. -/
structure LCPPhase where
  name : String
  durationMs : Rat
deriving DecidableEq, Repr

/-- The derived LCP breakdown payload. -/
structure LCPBreakdownData where
  lcpMs : Rat
  backendNodeId : Option Nat
  phases : List LCPPhase
deriving DecidableEq, Repr

/-- The typed field access `insightSet.model.LCPBreakdown`: the value
stored under the `LCPBreakdown` key (the TypeScript type of the model
object guarantees that, when present and truthy, it is the LCP model). -/
def InsightSet.lcpBreakdownInsight (s : InsightSet) : Option LCPInsightModel :=
  match mapGet s.model "LCPBreakdown" with
  | some (some (.lcp m)) => some m
  | _ => none

/-- Microseconds to milliseconds: `(micro) => micro / 1000`. -/
def toMs (micro : Rat) : Rat := micro / 1000

/-- Embedding of `getLCPBreakdownData`: null on missing insights / unknown set id /
missing LCPBreakdown insight; otherwise the node id from the LCP event,
the phases pushed in the fixed order TTFB, Load Delay, Load Duration,
Render Delay (each only when its subpart is present), and
`lcpMs ?? 0`. -/
def getLCPBreakdownData (result : TraceResult) (insightSetId : String) :
    Option LCPBreakdownData :=
  match result.insights with
  | none => none
  | some insights =>
    match mapGet insights insightSetId with
    | none => none
    | some insightSet =>
      match insightSet.lcpBreakdownInsight with
      | none => none
      | some lcpInsight =>
        let backendNodeId := lcpInsight.lcpEvent.bind (·.nodeId)
        let phases : List LCPPhase :=
          match lcpInsight.subparts with
          | none => []
          | some s =>
            (match s.ttfb with
              | some p => [⟨"TTFB", toMs p.range⟩]
              | none => []) ++
            (match s.loadDelay with
              | some p => [⟨"Load Delay", toMs p.range⟩]
              | none => []) ++
            (match s.loadDuration with
              | some p => [⟨"Load Duration", toMs p.range⟩]
              | none => []) ++
            (match s.renderDelay with
              | some p => [⟨"Render Delay", toMs p.range⟩]
              | none => [])
        some ⟨lcpInsight.lcpMs.getD 0, backendNodeId, phases⟩

/-! ## Layout shift extractor (`getLayoutShifts`, `getLayoutShiftImages`) -/

/-- The before/after image payload of one layout shift. -/
structure LayoutShiftImages where
  before : Option String
  after : Option String
deriving DecidableEq, Repr

/-- One flattened layout shift entry. -/
structure LayoutShiftData where
  ts : Nat
  score : Rat
  images : LayoutShiftImages
deriving DecidableEq, Repr

/-- The entry built from one synthetic layout shift event: its `ts`,
`args.data?.weighted_score_delta ?? 0`, and each image slot read from
whichever artifact representation is present. -/
def shiftEntry (event : SyntheticLayoutShift) : LayoutShiftData :=
  { ts := event.ts
    score := event.weightedScoreDelta.getD 0
    images :=
      { before := event.screenshotBefore.map ShotArgs.get
        after := event.screenshotAfter.map ShotArgs.get } }

/-- Embedding of `getLayoutShifts`: walk every cluster, and within it every event, in
order, flattening into one linear list. -/
def getLayoutShifts (result : TraceResult) : List LayoutShiftData :=
  (result.parsedTrace.layoutShiftClusters.map
    (fun cluster => cluster.events.map shiftEntry)).flatten

/-- Embedding of `getLayoutShiftImages`: `shifts.find(s => s.ts === timestamp)`,
returning its images, else null. -/
def getLayoutShiftImages (result : TraceResult) (timestamp : Nat) :
    Option LayoutShiftImages :=
  ((getLayoutShifts result).find? (fun s => s.ts == timestamp)).map (·.images)

/-! ## Accessibility-node correlator (`findAXNode`) -/

/-- A serialized accessibility node: its backend node identifier and its
children (an absent `children` field is the empty list). -/
inductive AXNode where
  | mk (backendNodeId : Nat) (children : List AXNode)

/-- The node's backend DOM identifier. -/
def AXNode.backendNodeId : AXNode → Nat
  | .mk i _ => i

/-- The node's children. -/
def AXNode.children : AXNode → List AXNode
  | .mk _ c => c

mutual

/-- Embedding of `findAXNode`: compare this node's backend identifier, then recurse
into the children in order, returning the first match found. -/
def findAXNode : AXNode → Nat → Option AXNode
  | .mk i cs, target =>
    if i = target then some (.mk i cs)
    else findAXNodeInChildren cs target

/-- The `for (const child of node.children)` loop of `findAXNode`:
return the first child subtree match. -/
def findAXNodeInChildren (nodes : List AXNode) (target : Nat) :
    Option AXNode :=
  match nodes with
  | [] => none
  | c :: rest =>
    match findAXNode c target with
    | some found => some found
    | none => findAXNodeInChildren rest target

end

mutual

/-- Pre-order listing of the nodes of a tree: the node itself, then the
pre-order listings of its children in order. -/
def AXNode.preorder : AXNode → List AXNode
  | .mk i cs => .mk i cs :: preorderForest cs

/-- Pre-order listing of a forest. -/
def preorderForest (nodes : List AXNode) : List AXNode :=
  match nodes with
  | [] => []
  | c :: rest => c.preorder ++ preorderForest rest

end

/-! ## Browser commands

Commands issued to the browser-control collaborator, recorded in order
to make "no tracing / navigation / screenshot command was issued"
statable. -/

/-- A command sent to the browser page or the persistence layer. -/
inductive BrowserCmd where
  | gotoBlank
  | gotoUrl (url : String)
  | tracingStart (categories : List String)
  | tracingStop
  | saveFile (path : String)
  | axSnapshot
  | elementScreenshot (backendNodeId : Nat)
deriving DecidableEq, Repr

/-! ## LCP display pipeline (`getLCPDataWithScreenshot`) -/

/-- Environment for the screenshot-correlation step:
`page.accessibility.snapshot({includeIframes: true})` (may throw, may be
null), `node.elementHandle()` for the node with the given backend id
(throwing, null — `false` — or live — `true`), and `handle.screenshot`
(base64 of the captured bytes, or a throw). -/
structure ShotEnv where
  axRoot : Except String (Option AXNode)
  elementHandle : Nat → Except String Bool
  elementScreenshot : Nat → Except String String

/-- The object `{...lcpData, screenshot}` returned by
`getLCPDataWithScreenshot`. -/
structure LCPPayloadWithScreenshot where
  lcpMs : Rat
  backendNodeId : Option Nat
  phases : List LCPPhase
  screenshot : Option String
deriving DecidableEq, Repr

/-- The `finalInsightSetId` loop of `getLCPDataWithScreenshot`: walk the
insight-set ids from the last to the first and stop at the first one
whose LCP breakdown exists and has `lcpMs > 0`. -/
def findFinalInsightSetId (lastRecording : TraceResult) : Option String :=
  match lastRecording.insights with
  | none => none
  | some insights =>
    let ids := insights.map (·.1)
    ids.reverse.find? (fun id =>
      match getLCPBreakdownData lastRecording id with
      | some lcpData => decide (0 < lcpData.lcpMs)
      | none => false)

/-- Embedding of `getLCPDataWithScreenshot`: select the final insight set with
positive LCP, re-derive its breakdown, and — only when
`lcpData.backendNodeId` is truthy (present and non-zero) — snapshot the
accessibility tree, correlate the node and screenshot it; every failure
in that step is caught and the payload returned without a screenshot. -/
def getLCPDataWithScreenshot (env : ShotEnv) (lastRecording : TraceResult) :
    Option LCPPayloadWithScreenshot × List BrowserCmd :=
  match findFinalInsightSetId lastRecording with
  | none => (none, [])
  | some finalInsightSetId =>
    match getLCPBreakdownData lastRecording finalInsightSetId with
    | none => (none, [])
    | some lcpData =>
      let payload := fun (shot : Option String) =>
        some { lcpMs := lcpData.lcpMs, backendNodeId := lcpData.backendNodeId,
               phases := lcpData.phases, screenshot := shot }
      match lcpData.backendNodeId with
      | none => (payload none, [])
      | some nodeId =>
        if nodeId = 0 then (payload none, [])
        else
          match env.axRoot with
          | .error _ => (payload none, [.axSnapshot])
          | .ok none => (payload none, [.axSnapshot])
          | .ok (some root) =>
            match findAXNode root nodeId with
            | none => (payload none, [.axSnapshot])
            | some _node =>
              match env.elementHandle nodeId with
              | .error _ => (payload none, [.axSnapshot])
              | .ok false => (payload none, [.axSnapshot])
              | .ok true =>
                match env.elementScreenshot nodeId with
                | .error _ =>
                  (payload none, [.axSnapshot, .elementScreenshot nodeId])
                | .ok b64 =>
                  (payload (some b64), [.axSnapshot, .elementScreenshot nodeId])

/-! ## Capture lifecycle controller (`startTrace`, `stopTrace`,
`stopTracingAndAppendOutput`) -/

/-- The lifecycle-relevant state of the tool `Context`: the
process-wide recording flag and the ordered history of recordings
(most recent last). -/
structure LifecycleState where
  isRunningPerformanceTrace : Bool
  recordedTraces : List TraceResult
deriving DecidableEq, Repr

section Lifecycle

variable {Event : Type}

/-- Environment of the stop path: `page.tracing.stop()` (may throw; its
buffer may be falsy), `zlib.gzip` (its rejection is a throw),
`context.saveFile` (may throw; returns the saved filename), the parse
environment fed to `parseRawTraceBuffer`, and the external
trace-summary formatter backing `getTraceSummary`. -/
structure StopEnv (Event : Type) where
  tracingStop : Except String (Option Buffer)
  gzip : Buffer → Except String Buffer
  saveFile : Buffer → String → Except String String
  parseEnv : ParseEnv Event
  traceSummary : TraceResult → String

/-- The `try` block of `stopTracingAndAppendOutput`: either a normal
completion or a thrown message, each with the state, response lines and
browser commands produced up to that point. -/
def stopTryBody (env : StopEnv Event) (filePath : Option String)
    (st : LifecycleState) :
    (LifecycleState × List String × List BrowserCmd) ⊕
      (String × LifecycleState × List String × List BrowserCmd) :=
  match env.tracingStop with
  | .error e => .inr (e, st, [], [.tracingStop])
  | .ok traceEventsBuffer =>
    let saveStep : (List String × List BrowserCmd) ⊕ String :=
      match filePath, traceEventsBuffer with
      | some fp, some buf =>
        let dataToWrite : Except String Buffer :=
          if fp.endsWith ".gz" then env.gzip buf else .ok buf
        match dataToWrite with
        | .error e => .inr e
        | .ok data =>
          match env.saveFile data fp with
          | .error e => .inr e
          | .ok filename =>
            .inl (["The raw trace data was saved to " ++ filename ++ "."],
                  [.saveFile fp])
      | _, _ => .inl ([], [])
    match saveStep with
    | .inr e => .inr (e, st, [], [.tracingStop])
    | .inl (saveLines, saveCmds) =>
      let result := (parseRawTraceBuffer env.parseEnv traceEventsBuffer).1
      let lines := saveLines ++ ["The performance trace has been stopped."]
      match result with
      | .inl traceResult =>
        .inl ({st with recordedTraces := st.recordedTraces ++ [traceResult]},
              lines ++ [env.traceSummary traceResult],
              .tracingStop :: saveCmds)
      | .inr parseError =>
        .inl (st,
              lines ++ ["There was an unexpected error parsing the trace:",
                        parseError.error],
              .tracingStop :: saveCmds)

/-- Embedding of `stopTracingAndAppendOutput`: run the try block; on a throw append
the catch clause's lines; in all cases the `finally` clause clears the
recording flag. -/
def stopTracingAndAppendOutput (env : StopEnv Event)
    (filePath : Option String) (st : LifecycleState) :
    LifecycleState × List String × List BrowserCmd :=
  match stopTryBody env filePath st with
  | .inl (st1, lines, cmds) =>
    ({st1 with isRunningPerformanceTrace := false}, lines, cmds)
  | .inr (e, st1, lines, cmds) =>
    ({st1 with isRunningPerformanceTrace := false},
     lines ++ ["An error occurred generating the response for this trace:", e],
     cmds)

/-- The trace categories requested from `page.tracing.start`. -/
def tracingCategories : List String :=
  ["-*",
   "blink.console",
   "blink.user_timing",
   "devtools.timeline",
   "disabled-by-default-devtools.screenshot",
   "disabled-by-default-devtools.timeline",
   "disabled-by-default-devtools.timeline.invalidationTracking",
   "disabled-by-default-devtools.timeline.frame",
   "disabled-by-default-devtools.timeline.stack",
   "disabled-by-default-v8.cpu_profiler",
   "disabled-by-default-v8.cpu_profiler.hires",
   "latencyInfo",
   "loading",
   "disabled-by-default-lighthouse",
   "v8.execute",
   "v8"]

/-- Environment of the start path: the selected page's URL and the stop
environment used when `autoStop` is requested. -/
structure StartEnv (Event : Type) where
  pageUrl : String
  stopEnv : StopEnv Event

/-- The schema parameters of `performance_start_trace`. -/
structure StartParams where
  reload : Bool
  autoStop : Bool
  filePath : Option String
deriving DecidableEq, Repr

/-- The rejection line emitted by `performance_start_trace` when a trace
is already running. -/
def startTraceRejectionMessage : String :=
  "Error: a performance trace is already running. Use performance_stop_trace to stop it. Only one trace can be running at any given time."

/-- The `performance_start_trace` handler: reject when already
recording; otherwise set the flag, optionally navigate to a blank page,
start tracing, optionally re-navigate, and either auto-stop (after the
fixed delay, not modelled) or report that recording is under way. -/
def startTraceHandler (env : StartEnv Event) (params : StartParams)
    (st : LifecycleState) :
    LifecycleState × List String × List BrowserCmd :=
  if st.isRunningPerformanceTrace then
    (st, [startTraceRejectionMessage], [])
  else
    let st1 := {st with isRunningPerformanceTrace := true}
    let preNav : List BrowserCmd := if params.reload then [.gotoBlank] else []
    let reNav : List BrowserCmd :=
      if params.reload then [.gotoUrl env.pageUrl] else []
    let cmds := preNav ++ [.tracingStart tracingCategories] ++ reNav
    if params.autoStop then
      let out := stopTracingAndAppendOutput env.stopEnv params.filePath st1
      (out.1, out.2.1, cmds ++ out.2.2)
    else
      (st1,
       ["The performance trace is being recorded. Use performance_stop_trace to stop it."],
       cmds)

/-- The `performance_stop_trace` handler: a silent no-op when not
recording, otherwise the shared stop path. -/
def stopTraceHandler (env : StopEnv Event) (filePath : Option String)
    (st : LifecycleState) :
    LifecycleState × List String × List BrowserCmd :=
  if st.isRunningPerformanceTrace then
    stopTracingAndAppendOutput env filePath st
  else
    (st, [], [])

end Lifecycle

/-! ## Concrete environments used to instantiate the theorems -/

/-- A parse environment whose decoder returns the empty string. -/
def emptyDecodeEnv : ParseEnv Nat :=
  { decode := fun _ => ""
    jsonParse := fun _ => .error "unreachable"
    engineParse := fun _ => .ok ()
    engineParsedTrace := fun _ => none }

/-- A parse environment decoding buffer `[1]` to a bare-array wire shape
and every other buffer to the object wire shape, both carrying the event
list `[5]`. -/
def twoShapeEnv : ParseEnv Nat :=
  { decode := fun b => if b = [1] then "A" else "B"
    jsonParse := fun s =>
      if s = "A" then .ok (.arr [5]) else .ok (.objTraceEvents [5])
    engineParse := fun _ => .ok ()
    engineParsedTrace := fun _ => some ⟨none, []⟩ }

/-- A stop environment in which every collaborator trivially succeeds. -/
def trivialStopEnv : StopEnv Nat :=
  { tracingStop := .ok none
    gzip := fun b => .ok b
    saveFile := fun _ _ => .ok "trace.json"
    parseEnv := emptyDecodeEnv
    traceSummary := fun _ => "summary" }

/-- A start environment over `trivialStopEnv`. -/
def trivialStartEnv : StartEnv Nat :=
  { pageUrl := "about:blank"
    stopEnv := trivialStopEnv }

/-! ## Lifecycle lemmas -/

/-- The `finally` clause: whatever the try block did, the returned state
has the recording flag cleared. -/
theorem stopTracing_flag_cleared {Event : Type} (env : StopEnv Event)
    (filePath : Option String) (st : LifecycleState) :
    (stopTracingAndAppendOutput env filePath st).1.isRunningPerformanceTrace
      = false := by
  unfold stopTracingAndAppendOutput
  cases stopTryBody env filePath st with
  | inl x => rfl
  | inr x => rfl

/-- With the recording flag down, the start handler reaches the tracing
start command. -/
theorem startTrace_accepted_of_not_recording {Event : Type}
    (env : StartEnv Event) (params : StartParams) (st : LifecycleState)
    (h : st.isRunningPerformanceTrace = false) :
    BrowserCmd.tracingStart tracingCategories ∈
      (startTraceHandler env params st).2.2 := by
  unfold startTraceHandler
  rw [h]
  by_cases hr : params.reload <;> by_cases ha : params.autoStop <;>
    simp [hr, ha]

/-- C1: while the `Recording` flag is set, `performance_start_trace`
only appends the user-facing rejection line: the state (flag and
recorded-trace history) is returned unchanged and no browser command —
in particular no navigation and no tracing command — is issued. -/
theorem C1_startTrace_rejected_while_recording {Event : Type}
    (env : StartEnv Event) (params : StartParams) (st : LifecycleState)
    (h : st.isRunningPerformanceTrace = true) :
    startTraceHandler env params st = (st, [startTraceRejectionMessage], []) := by
  unfold startTraceHandler
  rw [h]
  rfl

/-- C1 witness: the rejection at a concrete recording state. -/
theorem C1_witness :
    (LifecycleState.mk true []).isRunningPerformanceTrace = true ∧
    startTraceHandler trivialStartEnv ⟨false, false, none⟩
        (LifecycleState.mk true []) =
      (LifecycleState.mk true [], [startTraceRejectionMessage], []) :=
  ⟨rfl,
   C1_startTrace_rejected_while_recording trivialStartEnv
     ⟨false, false, none⟩ (LifecycleState.mk true []) rfl⟩

/-- C2: whatever the stop environment does — buffer retrieval, gzip,
file save throwing, parsing failing or succeeding — the state returned
by `stopTracingAndAppendOutput` has the `Recording` flag cleared, and a
subsequent `performance_start_trace` on that state is accepted (it
issues the tracing-start command instead of rejecting). -/
theorem C2_stopTracing_always_clears_flag {Event : Type}
    (env : StopEnv Event) (filePath : Option String) (st : LifecycleState) :
    (stopTracingAndAppendOutput env filePath st).1.isRunningPerformanceTrace
        = false ∧
    ∀ (Event2 : Type) (senv : StartEnv Event2) (params : StartParams),
      BrowserCmd.tracingStart tracingCategories ∈
        (startTraceHandler senv params
          (stopTracingAndAppendOutput env filePath st).1).2.2 := by
  refine ⟨stopTracing_flag_cleared env filePath st, ?_⟩
  intro Event2 senv params
  exact startTrace_accepted_of_not_recording senv params _
    (stopTracing_flag_cleared env filePath st)

/-! ## Buffer decoder claims -/

/-- C3 counterexample: on an absent buffer the source still performs an
engine operation — the unconditional `engine.resetProcessor()` — so the
engine-operation list is not empty. -/
theorem C3_counterexample_reset_on_absent_buffer :
    parseRawTraceBuffer emptyDecodeEnv none =
      (Sum.inr ⟨"No buffer was provided."⟩, [EngineOp.resetProcessor]) ∧
    (parseRawTraceBuffer emptyDecodeEnv none).2 ≠ [] := by
  constructor
  · rfl
  · intro hcontra
    simp [parseRawTraceBuffer] at hcontra

/-- C3 amended: an absent buffer yields the error
"No buffer was provided." and a present buffer decoding to the empty
string yields "Decoding the trace buffer returned an empty string."; in
both cases the only engine operation performed is the unconditional
processor reset — the engine's `parse` and `parsedTrace` are never
invoked. -/
theorem C3_parseRawTraceBuffer_rejects_absent_or_empty {Event : Type}
    (env : ParseEnv Event) :
    (parseRawTraceBuffer env none =
      (Sum.inr ⟨"No buffer was provided."⟩, [EngineOp.resetProcessor])) ∧
    (∀ buf : Buffer, env.decode buf = "" →
      parseRawTraceBuffer env (some buf) =
        (Sum.inr ⟨"Decoding the trace buffer returned an empty string."⟩,
         [EngineOp.resetProcessor])) := by
  refine ⟨rfl, ?_⟩
  intro buf h
  simp [parseRawTraceBuffer, h]

/-- C3 witness: the amended claim at a concrete environment and buffer. -/
theorem C3_witness :
    emptyDecodeEnv.decode [37] = "" ∧
    parseRawTraceBuffer emptyDecodeEnv (some [37]) =
      (Sum.inr ⟨"Decoding the trace buffer returned an empty string."⟩,
       [EngineOp.resetProcessor]) :=
  ⟨rfl,
   (C3_parseRawTraceBuffer_rejects_absent_or_empty emptyDecodeEnv).2 [37] rfl⟩

/-- C4: two buffers decoding to the bare-array shape and the
`traceEvents`-object shape over the same event list `L` produce
identical outcomes: the same result value and the same engine-operation
trace (the same events fed to `engine.parse`). -/
theorem C4_both_wire_shapes_equivalent {Event : Type}
    (env : ParseEnv Event) (L : List Event) (b1 b2 : Buffer)
    (h1 : env.decode b1 ≠ "") (h2 : env.decode b2 ≠ "")
    (hj1 : env.jsonParse (env.decode b1) = .ok (.arr L))
    (hj2 : env.jsonParse (env.decode b2) = .ok (.objTraceEvents L)) :
    parseRawTraceBuffer env (some b1) = parseRawTraceBuffer env (some b2) := by
  simp [parseRawTraceBuffer, h1, h2, hj1, hj2]

/-- C4 witness: a concrete pair of buffers in the two shapes over the
event list `[5]`. -/
theorem C4_witness :
    twoShapeEnv.decode [1] ≠ "" ∧
    twoShapeEnv.decode [2] ≠ "" ∧
    twoShapeEnv.jsonParse (twoShapeEnv.decode [1]) = .ok (.arr [5]) ∧
    twoShapeEnv.jsonParse (twoShapeEnv.decode [2]) =
      .ok (.objTraceEvents [5]) ∧
    parseRawTraceBuffer twoShapeEnv (some [1]) =
      parseRawTraceBuffer twoShapeEnv (some [2]) :=
  ⟨by simp [twoShapeEnv], by simp [twoShapeEnv], by simp [twoShapeEnv],
   by simp [twoShapeEnv],
   C4_both_wire_shapes_equivalent twoShapeEnv [5] [1] [2]
     (by simp [twoShapeEnv]) (by simp [twoShapeEnv])
     (by simp [twoShapeEnv]) (by simp [twoShapeEnv])⟩

/-! ## LCP breakdown deriver claims -/

/-- The LCPBreakdown model of the worked example: subparts
`ttfb.range = 50000`, `loadDelay.range = 20000`, nothing else. -/
def exampleLCPModel : LCPInsightModel :=
  { lcpEvent := none
    subparts := some
      { ttfb := some ⟨50000⟩
        loadDelay := some ⟨20000⟩
        loadDuration := none
        renderDelay := none }
    lcpMs := some 120 }

/-- An insight set holding only the example LCPBreakdown model. -/
def exampleInsightSet : InsightSet :=
  ⟨[("LCPBreakdown", some (.lcp exampleLCPModel))]⟩

/-- A trace result with one insight set, id `nav`, holding the example
model. -/
def exampleTraceResult : TraceResult :=
  { parsedTrace := ⟨some [("nav", exampleInsightSet)], []⟩
    insights := some [("nav", exampleInsightSet)] }

/-- C5: whenever the LCPBreakdown insight of the addressed set is
present and has subparts, the derived phase list is exactly one phase
per present subpart, in the fixed order TTFB, Load Delay, Load
Duration, Render Delay, each with `durationMs` the subpart's
microsecond range divided by 1000; absent subparts contribute nothing
(no zero-filled entries). -/
theorem C5_phases_from_subparts (result : TraceResult)
    (insights : TraceInsightSets) (insightSet : InsightSet)
    (m : LCPInsightModel) (sp : LCPSubparts) (setId : String)
    (hins : result.insights = some insights)
    (hset : mapGet insights setId = some insightSet)
    (hlcp : insightSet.lcpBreakdownInsight = some m)
    (hsp : m.subparts = some sp) :
    (getLCPBreakdownData result setId).map (·.phases) =
      some (([("TTFB", sp.ttfb), ("Load Delay", sp.loadDelay),
              ("Load Duration", sp.loadDuration),
              ("Render Delay", sp.renderDelay)]).filterMap
        (fun p => p.2.map (fun sub => ⟨p.1, sub.range / 1000⟩))) := by
  obtain ⟨t, ld, lu, rd⟩ := sp
  cases t <;> cases ld <;> cases lu <;> cases rd <;>
    simp [getLCPBreakdownData, hins, hset, hlcp, hsp, toMs]

/-- C5 witness: the worked example — subparts `ttfb.range = 50000` and
`loadDelay.range = 20000` yield exactly the phases TTFB 50 ms and
Load Delay 20 ms. -/
theorem C5_witness :
    (getLCPBreakdownData exampleTraceResult "nav").map (·.phases) =
      some [⟨"TTFB", 50⟩, ⟨"Load Delay", 20⟩] := by
  have h := C5_phases_from_subparts exampleTraceResult
    [("nav", exampleInsightSet)] exampleInsightSet exampleLCPModel
    ⟨some ⟨50000⟩, some ⟨20000⟩, none, none⟩ "nav"
    rfl (by decide) (by decide) rfl
  rw [h]
  norm_num [List.filterMap_cons]

/-! ## Insight registry claims -/

/-- A trace result carrying no insights at all. -/
def noInsightsResult : TraceResult :=
  { parsedTrace := ⟨none, []⟩, insights := none }

/-- C7: the full branch contract of `getInsightOutput` — missing
insights, unknown insight-set id, missing-or-falsy insight name, and
the success case returning the formatter's output; being a pure
function of its arguments, it never mutates the trace result. -/
theorem C7_getInsightOutput_contract
    (fmt : ParsedTrace → InsightModel → String) (result : TraceResult)
    (setId name : String) :
    (result.insights = none →
      getInsightOutput fmt result setId name =
        .error "No Performance insights are available for this trace.") ∧
    (∀ insights, result.insights = some insights →
      mapGet insights setId = none →
      getInsightOutput fmt result setId name =
        .error "No Performance Insights for the given insight set id. Only use ids given in the \"Available insight sets\" list.") ∧
    (∀ insights s, result.insights = some insights →
      mapGet insights setId = some s →
      (mapGet s.model name).join = none →
      getInsightOutput fmt result setId name =
        .error ("No Insight with the name " ++ name ++ " found. Double check the name you provided is accurate and try again.")) ∧
    (∀ insights s m, result.insights = some insights →
      mapGet insights setId = some s →
      (mapGet s.model name).join = some m →
      getInsightOutput fmt result setId name =
        .output (fmt result.parsedTrace m)) := by
  refine ⟨?_, ?_, ?_, ?_⟩
  · intro h
    simp [getInsightOutput, h]
  · intro insights h1 h2
    simp [getInsightOutput, h1, h2]
  · intro insights s h1 h2 h3
    cases h4 : mapGet s.model name with
    | none =>
      simp [getInsightOutput, h1, h2, h4]
    | some v =>
      rw [h4] at h3
      have h5 : v = none := h3
      simp [getInsightOutput, h1, h2, h4, h5]
  · intro insights s m h1 h2 h3
    cases h4 : mapGet s.model name with
    | none =>
      rw [h4] at h3
      simp [Option.join] at h3
    | some v =>
      rw [h4] at h3
      have h5 : v = some m := h3
      simp [getInsightOutput, h1, h2, h4, h5]

/-- C7 witness: the missing-insights branch at a concrete input. -/
theorem C7_witness :
    getInsightOutput (fun _ _ => "formatted") noInsightsResult "s1"
        "LCPBreakdown" =
      .error "No Performance insights are available for this trace." :=
  (C7_getInsightOutput_contract (fun _ _ => "formatted") noInsightsResult
    "s1" "LCPBreakdown").1 rfl

/-! ## Layout shift extractor claims -/

/-- A trace result with two shift clusters: one event at ts 1000, then
two events at ts 1234 carrying different images (so first-match
semantics is observable). -/
def exampleShiftResult : TraceResult :=
  { parsedTrace :=
      ⟨none,
       [⟨[⟨1000, some 1, some (.snapshot "s1"), none⟩]⟩,
        ⟨[⟨1234, none, none, some (.dataUri "d2")⟩,
          ⟨1234, some 2, some (.snapshot "s3"), none⟩]⟩]⟩
    insights := none }

/-- C8: `getLayoutShiftImages result t` returns the images of the first
entry of the flattened shift list whose `ts` equals `t`, and `none`
when no entry has `ts = t`. -/
theorem C8_getLayoutShiftImages_first_match (result : TraceResult)
    (t : Nat) :
    (∀ pre x post, getLayoutShifts result = pre ++ x :: post →
      x.ts = t → (∀ y ∈ pre, y.ts ≠ t) →
      getLayoutShiftImages result t = some x.images) ∧
    ((∀ x ∈ getLayoutShifts result, x.ts ≠ t) →
      getLayoutShiftImages result t = none) := by
  constructor
  · intro pre x post hsplit hx hpre
    unfold getLayoutShiftImages
    rw [hsplit, List.find?_append]
    have hpre' : pre.find? (fun s => s.ts == t) = none := by
      rw [List.find?_eq_none]
      intro y hy
      simp [hpre y hy]
    rw [hpre', List.find?_cons_of_pos _ (by simp [hx])]
    rfl
  · intro hall
    unfold getLayoutShiftImages
    rw [(List.find?_eq_none).2 (fun y hy => by simp [hall y hy])]
    rfl

/-- C8 witness: at timestamp 1234, the images returned are those of the
first of the two matching events, skipping the non-matching event at
ts 1000. -/
theorem C8_witness :
    getLayoutShifts exampleShiftResult =
      [⟨1000, 1, ⟨some "s1", none⟩⟩] ++
        ⟨1234, 0, ⟨none, some "d2"⟩⟩ :: [⟨1234, 2, ⟨some "s3", none⟩⟩] ∧
    (⟨1234, 0, ⟨none, some "d2"⟩⟩ : LayoutShiftData).ts = 1234 ∧
    getLayoutShiftImages exampleShiftResult 1234 =
      some ⟨none, some "d2"⟩ := by
  refine ⟨by decide, rfl, ?_⟩
  exact (C8_getLayoutShiftImages_first_match exampleShiftResult 1234).1
    [⟨1000, 1, ⟨some "s1", none⟩⟩] ⟨1234, 0, ⟨none, some "d2"⟩⟩
    [⟨1234, 2, ⟨some "s3", none⟩⟩] (by decide) rfl (by decide)

/-! ## Accessibility-node correlator claims -/

mutual

/-- Number of nodes in a tree. -/
def AXNode.size : AXNode → Nat
  | .mk _ cs => 1 + sizeForest cs

/-- Number of nodes in a forest. -/
def sizeForest : List AXNode → Nat
  | [] => 0
  | c :: rest => c.size + sizeForest rest

end

mutual

/-- Lemma: `findAXNode` is the first pre-order node matching the target id. -/
theorem findAXNode_eq_find (n : AXNode) (t : Nat) :
    findAXNode n t = n.preorder.find? (fun m => m.backendNodeId == t) := by
  match n with
  | .mk i cs =>
    rw [findAXNode, AXNode.preorder]
    by_cases h : i = t
    · rw [if_pos h, List.find?_cons_of_pos _ (by simp [AXNode.backendNodeId, h])]
    · rw [if_neg h, List.find?_cons_of_neg _ (by simp [AXNode.backendNodeId, h])]
      exact findAXNodeInChildren_eq_find cs t

/-- The child loop of `findAXNode` is the first pre-order forest node
matching the target id. -/
theorem findAXNodeInChildren_eq_find (l : List AXNode) (t : Nat) :
    findAXNodeInChildren l t =
      (preorderForest l).find? (fun m => m.backendNodeId == t) := by
  match l with
  | [] => rfl
  | c :: rest =>
    rw [findAXNodeInChildren, preorderForest, List.find?_append,
        ← findAXNode_eq_find c t, ← findAXNodeInChildren_eq_find rest t]
    cases findAXNode c t <;> rfl

end

mutual

/-- A tree's pre-order listing has exactly one entry per node. -/
theorem preorder_length_eq_size (n : AXNode) :
    n.preorder.length = n.size := by
  match n with
  | .mk i cs =>
    rw [AXNode.preorder, AXNode.size, List.length_cons,
        preorderForest_length_eq_size cs]
    omega

/-- A forest's pre-order listing has exactly one entry per node. -/
theorem preorderForest_length_eq_size (l : List AXNode) :
    (preorderForest l).length = sizeForest l := by
  match l with
  | [] => rfl
  | c :: rest =>
    rw [preorderForest, sizeForest, List.length_append,
        preorder_length_eq_size c, preorderForest_length_eq_size rest]

end

/-- The example tree of the claim:
`{id 1, children [{id 2}, {id 3, children [{id 4}]}]}`. -/
def exampleAXTree : AXNode :=
  .mk 1 [.mk 2 [], .mk 3 [.mk 4 []]]

/-- C9: `findAXNode` returns the first node in pre-order (parent before
children, children in order) whose backend identifier equals the
target, returns null exactly when no node of the tree matches, and the
traversal covers each node exactly once (the pre-order listing it
searches has one entry per node); on the example tree, id 4 is found
and id 99 is not. -/
theorem C9_findAXNode_preorder_first_match :
    (∀ (n : AXNode) (t : Nat),
      findAXNode n t = n.preorder.find? (fun m => m.backendNodeId == t) ∧
      (findAXNode n t = none ↔ ∀ m ∈ n.preorder, m.backendNodeId ≠ t) ∧
      n.preorder.length = n.size) ∧
    findAXNode exampleAXTree 4 = some (.mk 4 []) ∧
    findAXNode exampleAXTree 99 = none := by
  refine ⟨fun n t => ⟨findAXNode_eq_find n t, ?_, preorder_length_eq_size n⟩,
          ?_, ?_⟩
  · rw [findAXNode_eq_find n t, List.find?_eq_none]
    constructor
    · intro h m hm
      have := h m hm
      simpa using this
    · intro h m hm
      simpa using h m hm
  · simp [exampleAXTree, findAXNode, findAXNodeInChildren]
  · simp [exampleAXTree, findAXNode, findAXNodeInChildren]

/-! ## LCP display pipeline claims -/

/-- The Bool test of the selection loop: the set's LCP breakdown exists
and has strictly positive `lcpMs`. -/
def lcpPositive (r : TraceResult) (id : String) : Bool :=
  match getLCPBreakdownData r id with
  | some lcpData => decide (0 < lcpData.lcpMs)
  | none => false

/-- The selection loop is a first-match scan of the reversed id list. -/
theorem findFinalInsightSetId_eq (r : TraceResult)
    (insights : TraceInsightSets) (hins : r.insights = some insights) :
    findFinalInsightSetId r =
      (insights.map Prod.fst).reverse.find? (lcpPositive r) := by
  unfold findFinalInsightSetId
  rw [hins]
  rfl

/-- An LCPBreakdown model with only an LCP timestamp. -/
def lcpModelWithMs (ms : Rat) : LCPInsightModel :=
  { lcpEvent := none, subparts := none, lcpMs := some ms }

/-- Two insight sets: A with `lcpMs = 0`, then B with `lcpMs = 120`. -/
def exampleTwoSetsList : TraceInsightSets :=
  [("A", ⟨[("LCPBreakdown", some (.lcp (lcpModelWithMs 0)))]⟩),
   ("B", ⟨[("LCPBreakdown", some (.lcp (lcpModelWithMs 120)))]⟩)]

/-- A trace result over the two example insight sets. -/
def exampleTwoSetsResult : TraceResult :=
  { parsedTrace := ⟨some exampleTwoSetsList, []⟩
    insights := some exampleTwoSetsList }

/-- C6: the selected insight set is one whose LCP breakdown has
strictly positive `lcpMs` and every set after it (more recently
produced) fails that test — i.e. the reverse scan picks the last
positive set; the selection is empty exactly when no set is positive,
and then the display pipeline returns no payload and issues no browser
command. -/
theorem C6_final_lcp_selection (r : TraceResult)
    (insights : TraceInsightSets) (hins : r.insights = some insights) :
    (∀ id, findFinalInsightSetId r = some id →
      ∃ pre s post, insights = pre ++ (id, s) :: post ∧
        lcpPositive r id = true ∧
        ∀ p ∈ post, lcpPositive r p.1 = false) ∧
    (findFinalInsightSetId r = none ↔
      ∀ p ∈ insights, lcpPositive r p.1 = false) ∧
    (findFinalInsightSetId r = none →
      ∀ env, getLCPDataWithScreenshot env r = (none, [])) := by
  have hchar := findFinalInsightSetId_eq r insights hins
  refine ⟨?_, ?_, ?_⟩
  · intro id hid
    rw [hchar, List.find?_eq_some] at hid
    obtain ⟨hpos, as, bs, hsplit, hfail⟩ := hid
    have hm : insights.map Prod.fst = bs.reverse ++ id :: as.reverse := by
      have h2 := congrArg List.reverse hsplit
      simp only [List.reverse_reverse, List.reverse_append,
        List.reverse_cons, List.append_assoc, List.singleton_append] at h2
      exact h2
    rw [List.map_eq_append_iff] at hm
    obtain ⟨pre, rest, hins2, hpre, hrest⟩ := hm
    rw [List.map_eq_cons_iff] at hrest
    obtain ⟨⟨eid, es⟩, post, hrest2, he1, hpost⟩ := hrest
    simp only at he1
    subst he1
    refine ⟨pre, es, post, by rw [hins2, hrest2], hpos, ?_⟩
    intro p hp
    have hmem : p.1 ∈ as.reverse := by
      rw [← hpost]
      exact List.mem_map_of_mem Prod.fst hp
    rw [List.mem_reverse] at hmem
    have := hfail p.1 hmem
    simpa using this
  · rw [hchar, List.find?_eq_none]
    constructor
    · intro h p hp
      have := h p.1 (by rw [List.mem_reverse]; exact List.mem_map_of_mem _ hp)
      simpa using this
    · intro h x hx
      rw [List.mem_reverse, List.mem_map] at hx
      obtain ⟨p, hp, rfl⟩ := hx
      simpa using h p hp
  · intro hnone env
    unfold getLCPDataWithScreenshot
    rw [hnone]

/-- C6 witness: over the sets `[A(lcpMs = 0), B(lcpMs = 120)]` the
selection returns B, and the none-case characterization holds there. -/
theorem C6_witness :
    exampleTwoSetsResult.insights = some exampleTwoSetsList ∧
    findFinalInsightSetId exampleTwoSetsResult = some "B" ∧
    (findFinalInsightSetId exampleTwoSetsResult = none ↔
      ∀ p ∈ exampleTwoSetsList,
        lcpPositive exampleTwoSetsResult p.1 = false) :=
  ⟨rfl, by decide,
   (C6_final_lcp_selection exampleTwoSetsResult exampleTwoSetsList rfl).2.1⟩

/-- C10: when the selected LCP breakdown carries `backendNodeId = 0`
(present but zero), the truthiness guard skips the whole
screenshot-correlation step: no accessibility snapshot and no
screenshot command is issued, and the payload is returned with the
node id present and no screenshot. -/
theorem C10_zero_backendNodeId_skips_screenshot (env : ShotEnv)
    (r : TraceResult) (id : String) (d : LCPBreakdownData)
    (hid : findFinalInsightSetId r = some id)
    (hd : getLCPBreakdownData r id = some d)
    (hb : d.backendNodeId = some 0) :
    getLCPDataWithScreenshot env r =
      (some ⟨d.lcpMs, some 0, d.phases, none⟩, []) := by
  unfold getLCPDataWithScreenshot
  rw [hid]
  simp only [hd, hb]
  simp

/-- An LCPBreakdown model whose LCP event reports DOM node id 0. -/
def zeroNodeModel : LCPInsightModel :=
  { lcpEvent := some ⟨some 0⟩, subparts := none, lcpMs := some 120 }

/-- A recording whose only insight set carries the zero-node model. -/
def zeroNodeResult : TraceResult :=
  { parsedTrace :=
      ⟨some [("nav", ⟨[("LCPBreakdown", some (.lcp zeroNodeModel))]⟩)], []⟩
    insights :=
      some [("nav", ⟨[("LCPBreakdown", some (.lcp zeroNodeModel))]⟩)] }

/-- A screenshot environment that would succeed — its accessibility
tree even contains a node with backend id 0 — making the absence of
commands attributable to the guard alone. -/
def probeShotEnv : ShotEnv :=
  { axRoot := .ok (some (.mk 0 []))
    elementHandle := fun _ => .ok true
    elementScreenshot := fun _ => .ok "IMG" }

/-- C10 witness: the zero-node recording under the all-succeeding
environment still yields no screenshot and no browser command. -/
theorem C10_witness :
    findFinalInsightSetId zeroNodeResult = some "nav" ∧
    getLCPBreakdownData zeroNodeResult "nav" = some ⟨120, some 0, []⟩ ∧
    getLCPDataWithScreenshot probeShotEnv zeroNodeResult =
      (some ⟨120, some 0, [], none⟩, []) := by
  have h1 : findFinalInsightSetId zeroNodeResult = some "nav" := by decide
  have h2 : getLCPBreakdownData zeroNodeResult "nav" =
      some ⟨120, some 0, []⟩ := by decide
  exact ⟨h1, h2,
    C10_zero_backendNodeId_skips_screenshot probeShotEnv zeroNodeResult
      "nav" ⟨120, some 0, []⟩ h1 h2 rfl⟩

end Spec2Proof
